import Mathlib

/-!
Shallow embedding of `src/zadanie1.py`: the `Field` hierarchy
(`Name` / `Phone` / `Birthday`), `Record`, and `AddressBook`,
together with theorems settling the specification claims.

Conventions of the embedding:
* A Python `str` is a Lean `String`; `str.isdigit` is rendered as
  `Char.isDigit` (decimal digits).
* Raising `ValueError` is rendered as `Except.error` carrying the
  message; a method that cannot raise is a total function.
* A Python attribute-access type error (`AttributeError`) arising on a
  concrete execution path is rendered as `Except.error` as well.
* `dict` is an insertion-ordered association list with unique keys:
  assignment to an existing key updates in place, otherwise appends.
-/

namespace Zadanie1

/-- `''.join(filter(str.isdigit, str(phone)))` from `Phone.__init__`
(line 34): keep only the digit characters of the input. -/
def normalizePhone (s : String) : String :=
  ⟨s.data.filter Char.isDigit⟩

/-- Embedding of `Phone.__init__` (lines 32–39): normalize the input;
if the normalized string has exactly 9 digits it becomes the stored
value (via `Field.__init__`), otherwise `ValueError` is raised. -/
def mkPhone (s : String) : Except String String :=
  let normalized := normalizePhone s
  if normalized.length = 9 then Except.ok normalized
  else Except.error "Phone number must contain exactly 9 digits."

/-- `Field.validate` (lines 20–21) is `pass`; `Phone` does NOT override
it, so this no-op is what the `value` setter runs on `phone.value = x`. -/
def fieldValidate (_value : String) : Except String Unit :=
  Except.ok ()

/-- The `Field.value` setter (lines 15–18) as inherited by `Phone`:
validate (a no-op for `Phone`), then assign the new value verbatim. -/
def phoneSetValue (_old newValue : String) : Except String String :=
  match fieldValidate newValue with
  | Except.ok _ => Except.ok newValue
  | Except.error e => Except.error e

theorem mkPhone_ok_iff (s : String) :
    (mkPhone s).isOk = true ↔ (normalizePhone s).length = 9 := by
  unfold mkPhone
  by_cases h : (normalizePhone s).length = 9 <;> simp [h, Except.isOk, Except.toBool]

theorem mkPhone_ok_elim (s p : String) (h : mkPhone s = Except.ok p) :
    p = normalizePhone s ∧ (normalizePhone s).length = 9 := by
  unfold mkPhone at h
  by_cases h9 : (normalizePhone s).length = 9
  · simp [h9] at h
    exact ⟨h.symm, h9⟩
  · simp [h9] at h

theorem normalizePhone_idem (s : String) :
    normalizePhone (normalizePhone s) = normalizePhone s := by
  unfold normalizePhone
  have : (s.data.filter Char.isDigit).filter Char.isDigit
      = s.data.filter Char.isDigit := by
    apply List.filter_eq_self.mpr
    intro a ha
    exact List.of_mem_filter ha
  simp [this]

/-- C1: for every input string `s`, `Phone(s)` succeeds iff the string
obtained by removing all non-digit characters from `s` has length
exactly 9; on success the stored value is that 9-digit string, and
re-constructing a `Phone` from a stored value succeeds and stores the
same value. -/
theorem phone_construction_spec (s : String) :
    ((mkPhone s).isOk = true ↔ (normalizePhone s).length = 9)
    ∧ (∀ p, mkPhone s = Except.ok p →
        p = normalizePhone s ∧ p.length = 9 ∧ mkPhone p = Except.ok p) := by
  refine ⟨mkPhone_ok_iff s, ?_⟩
  intro p hp
  obtain ⟨hval, hlen⟩ := mkPhone_ok_elim s p hp
  subst hval
  refine ⟨rfl, hlen, ?_⟩
  unfold mkPhone
  simp [normalizePhone_idem, hlen]

theorem phone_construction_spec_witness :
    ((mkPhone "123-45-6789").isOk = true
      ↔ (normalizePhone "123-45-6789").length = 9)
    ∧ ("123456789" = normalizePhone "123-45-6789"
      ∧ ("123456789" : String).length = 9
      ∧ mkPhone "123456789" = Except.ok "123456789") :=
  ⟨(phone_construction_spec "123-45-6789").1,
   (phone_construction_spec "123-45-6789").2 "123456789" rfl⟩

/-- Check whether `y` is a leap year of the proleptic Gregorian calendar,
as Python's `datetime` uses. -/
def isLeapYear (y : Nat) : Bool :=
  (y % 4 = 0 && y % 100 ≠ 0) || y % 400 = 0

/-- Number of days of month `m` in year `y` (Gregorian). -/
def daysInMonth (y m : Nat) : Nat :=
  if m = 2 then (if isLeapYear y then 29 else 28)
  else if m = 4 || m = 6 || m = 9 || m = 11 then 30
  else 31

/-- Split a character list on the dash separator, like `"s".split("-")`:
`"a-b"` gives two groups, an empty input gives one empty group. -/
def splitOnDash : List Char → List (List Char)
  | [] => [[]]
  | c :: rest =>
    let r := splitOnDash rest
    if c = '-' then [] :: r
    else
      match r with
      | [] => [[c]]
      | g :: gs => (c :: g) :: gs

/-- Read an all-digit character group as a number. -/
def digitsToNat (l : List Char) : Nat :=
  l.foldl (fun acc c => acc * 10 + (c.toNat - 48)) 0

/-- `datetime.strptime(value, "%Y-%m-%d")` as used by `Birthday.validate`
(line 45): three dash-separated all-digit groups (year up to 4 digits,
month and day up to 2) denoting a real calendar date with year in
1..9999; returns the parsed date on success and `none` on parse failure. -/
def parseDate (s : String) : Option (Nat × Nat × Nat) :=
  match splitOnDash s.data with
  | [ys, ms, ds] =>
    if 1 ≤ ys.length && ys.length ≤ 4 && ys.all Char.isDigit
       && 1 ≤ ms.length && ms.length ≤ 2 && ms.all Char.isDigit
       && 1 ≤ ds.length && ds.length ≤ 2 && ds.all Char.isDigit then
      let y := digitsToNat ys
      let m := digitsToNat ms
      let d := digitsToNat ds
      if 1 ≤ y && y ≤ 9999 && 1 ≤ m && m ≤ 12 && 1 ≤ d && d ≤ daysInMonth y m
      then some (y, m, d)
      else none
    else none
  | _ => none

/-- Embedding of `Birthday.validate` (lines 43–47): try to parse the
value as `%Y-%m-%d`; on `ValueError` from `strptime`, raise the
invalid-date `ValueError` instead. -/
def birthdayValidate (s : String) : Except String Unit :=
  match parseDate s with
  | some _ => Except.ok ()
  | none => Except.error "Invalid date format. Please use YYYY-MM-DD."

/-- Embedding of `Birthday(value)` construction: `Birthday` inherits
`Field.__init__` (lines 8–9), which assigns `self._value = value`
directly — it does not go through the `value` property setter — so
`Birthday.validate` is never invoked and construction always succeeds,
storing the raw input string. -/
def mkBirthday (s : String) : Except String String :=
  Except.ok s

/-- Embedding of a `Record` (lines 50–54): the stored `_value` of its
`Name`, the stored `_value` of its optional `Birthday` (a raw string —
the code never converts it to a date object), and the stored `_value`s
of its `Phone` list, in order. -/
structure Record where
  name : String
  birthday : Option String
  phones : List String
  deriving DecidableEq

/-- Embedding of `Record.__init__` (lines 51–54): `birthday_value` is
`None` or a string; the guard `if birthday_value` treats `None` and the
empty string as falsy, leaving `self.birthday = None`. -/
def mkRecord (nameValue : String) (birthdayValue : Option String) : Record :=
  { name := nameValue
  , birthday := match birthdayValue with
      | some b => if b = "" then none else some b
      | none => none
  , phones := [] }

/-- Embedding of `Record.add_phone` (lines 56–58): construct a `Phone`
(which validates and normalizes) and append it; a `ValueError` from the
constructor propagates and leaves the record unchanged. -/
def addPhone (r : Record) (phoneValue : String) : Except String Record :=
  match mkPhone phoneValue with
  | Except.ok p => Except.ok { r with phones := r.phones ++ [p] }
  | Except.error e => Except.error e

/-- The loop of `Record.remove_phone` (lines 60–64): drop the first
element equal to `v`, if any. -/
def removeFirst : List String → String → List String
  | [], _ => []
  | p :: ps, v => if p = v then ps else p :: removeFirst ps v

/-- Embedding of `Record.remove_phone` (lines 60–64): remove the first
phone whose stored value equals `phone_value`; never raises. -/
def removePhone (r : Record) (phoneValue : String) : Record :=
  { r with phones := removeFirst r.phones phoneValue }

/-- The loop of `Record.edit_phone` (lines 66–70): replace the first
element equal to `old` by `new`, verbatim, if any. -/
def editFirst : List String → String → String → List String
  | [], _, _ => []
  | p :: ps, old, new => if p = old then new :: ps else p :: editFirst ps old new

/-- Embedding of `Record.edit_phone` (lines 66–70): on the first phone
whose value equals `old_phone_value`, execute `phone.value =
new_phone_value`. That assignment runs the inherited `Field.value`
setter, whose `self.validate(new_value)` resolves to the no-op
`Field.validate` because `Phone` overrides only `__init__`, so the new
value is stored verbatim (no normalization, no 9-digit check) and the
method never raises. -/
def editPhone (r : Record) (oldPhoneValue newPhoneValue : String) : Record :=
  { r with phones := editFirst r.phones oldPhoneValue newPhoneValue }

/-- Embedding of `Record.days_to_birthday` (lines 72–79). When a
birthday is present, the code evaluates `self.birthday.value.month`,
but the stored value is the raw string the record was constructed with
(never a `date` object), so the attribute access raises
`AttributeError` on every execution, whatever today's date is; with no
birthday it returns `None`. -/
def daysToBirthday (r : Record) : Except String (Option Int) :=
  match r.birthday with
  | some _ => Except.error "AttributeError: str object has no attribute month"
  | none => Except.ok none

/-- The spec's phone invariant: a stored phone value is exactly 9
decimal digits. -/
def phonesValid (r : Record) : Bool :=
  r.phones.all fun p => p.length = 9 && p.data.all Char.isDigit

/-- C2: the 9-digit invariant is claimed to be preserved by every
`Record` operation, but `edit_phone` stores the new value without any
validation: starting from a record satisfying the invariant,
`edit_phone("123456789", "abc")` succeeds and leaves a phone list whose
element is not 9 digits. -/
theorem edit_phone_breaks_invariant :
    phonesValid { name := "bob", birthday := none, phones := ["123456789"] } = true
    ∧ editPhone { name := "bob", birthday := none, phones := ["123456789"] }
        "123456789" "abc"
      = { name := "bob", birthday := none, phones := ["abc"] }
    ∧ phonesValid (editPhone
        { name := "bob", birthday := none, phones := ["123456789"] }
        "123456789" "abc") = false := by
  refine ⟨by decide, by decide, by decide⟩

/-- C3: `edit_phone` is claimed to re-run the full normalization and
9-digit validation on the new value, raising `ValueError` and leaving
the list unchanged when it fails; in fact the new value "12" (whose
digit filtering has length 2, so `Phone("12")` would raise) is stored
verbatim with no error, changing the list; likewise "987-65-4321" is
stored with its dashes, not normalized. -/
theorem edit_phone_skips_validation :
    (normalizePhone "12").length ≠ 9
    ∧ mkPhone "12" = Except.error "Phone number must contain exactly 9 digits."
    ∧ editPhone { name := "bob", birthday := none, phones := ["123456789"] }
        "123456789" "12"
      = { name := "bob", birthday := none, phones := ["12"] }
    ∧ editPhone { name := "bob", birthday := none, phones := ["123456789"] }
        "123456789" "987-65-4321"
      = { name := "bob", birthday := none, phones := ["987-65-4321"] } := by
  refine ⟨by decide, rfl, by decide, by decide⟩

/-- C4: constructing a `Birthday` is claimed to succeed only for valid
`YYYY-MM-DD` strings; in fact `Field.__init__` bypasses the validating
setter, so `Birthday("hello")` succeeds and stores "hello" even though
`Birthday.validate` rejects that string, and `Record("bob", "hello")`
likewise succeeds with that invalid stored birthday. -/
theorem birthday_construction_skips_validation :
    mkBirthday "hello" = Except.ok "hello"
    ∧ birthdayValidate "hello"
      = Except.error "Invalid date format. Please use YYYY-MM-DD."
    ∧ (mkRecord "bob" (some "hello")).birthday = some "hello" := by
  refine ⟨rfl, rfl, by decide⟩

/-- C5: `days_to_birthday` is claimed to return an integer in [0, 366]
for a record with a valid stored birthday; in fact even for the valid
birthday string "1990-05-10" the call raises `AttributeError`, because
the stored value is a string and has no `month` attribute; only the
no-birthday case behaves as claimed, returning `None`. -/
theorem days_to_birthday_crashes :
    birthdayValidate "1990-05-10" = Except.ok ()
    ∧ daysToBirthday (mkRecord "bob" (some "1990-05-10"))
      = Except.error "AttributeError: str object has no attribute month"
    ∧ daysToBirthday (mkRecord "bob" none) = Except.ok none := by
  refine ⟨rfl, ?_, rfl⟩
  have : (mkRecord "bob" (some "1990-05-10")).birthday = some "1990-05-10" := by decide
  simp [daysToBirthday, this]

/-- Python `dict` assignment `d[k] = v`: update in place if the key is
present (keeping its position), otherwise append the new entry. -/
def dictInsert : List (String × Record) → String → Record → List (String × Record)
  | [], k, v => [(k, v)]
  | (k₁, v₁) :: rest, k, v =>
    if k₁ = k then (k, v) :: rest else (k₁, v₁) :: dictInsert rest k v

/-- Python `dict` lookup `d.get(k)`: the value of the first (hence only)
entry with key `k`. -/
def dictGet : List (String × Record) → String → Option Record
  | [], _ => none
  | (k₁, v₁) :: rest, k => if k₁ = k then some v₁ else dictGet rest k

/-- Embedding of an `AddressBook` (line 87): `UserDict`'s `self.data`
as an insertion-ordered association list from name to record. -/
structure AddressBook where
  data : List (String × Record)
  deriving DecidableEq

/-- Embedding of `AddressBook.add_record` (lines 88–89):
`self.data[record.name.value] = record`; never raises. -/
def addRecord (book : AddressBook) (r : Record) : AddressBook :=
  { data := dictInsert book.data r.name r }

/-- The inner loop of `AddressBook.search_records` (lines 94–103): the
`match` flag over `criteria.items()`, with its early `break`s. A `name`
criterion fails when the record's name differs; a `phone` criterion
fails when no phone equals the value; any other key falls through both
branches and is skipped. -/
def recordMatches (r : Record) : List (String × String) → Bool
  | [] => true
  | (field, value) :: rest =>
    if field = "name" && r.name ≠ value then false
    else if field = "phone" then
      if r.phones.any (fun p => p = value) then recordMatches r rest
      else false
    else recordMatches r rest

/-- Embedding of `AddressBook.search_records` (lines 91–106): collect,
in the order of `self.data.values()`, the records for which the inner
loop leaves `match` true. -/
def searchRecords (book : AddressBook) (criteria : List (String × String)) :
    List Record :=
  (book.data.map Prod.snd).filter fun r => recordMatches r criteria

/-- The claim's per-criterion predicate, written from its words: a
`name` criterion holds iff the record's name equals the value exactly,
a `phone` criterion holds iff some phone equals the value exactly, and
any unrecognized key holds vacuously. -/
def criterionHolds (r : Record) (c : String × String) : Bool :=
  if c.1 = "name" then r.name = c.2
  else if c.1 = "phone" then r.phones.any (fun p => p = c.2)
  else true

/-- A stored snapshot: the pickled `self.data` mapping. -/
abbrev Snapshot := List (String × Record)

/-- Embedding of `AddressBook.save_to_file` (lines 111–113): overwrite
the file's content with the serialized `self.data`. The pickle module's
round-trip fidelity (`pickle.loads(pickle.dumps(x)) == x` for these
plain data objects) is modelled by storing the snapshot value itself. -/
def saveToFile (book : AddressBook) (_fileContent : Option Snapshot) :
    Option Snapshot :=
  some book.data

/-- Embedding of `AddressBook.load_from_file` (lines 115–121): when the
file exists, `self.data` is replaced wholesale by its deserialized
content (the previous in-memory state, `book`, is discarded); when it
does not, the `FileNotFoundError` is caught, a diagnostic is printed,
and `self.data` is reset to empty. Returns the new book and the list of
printed messages. -/
def loadFromFile (_book : AddressBook) (fileContent : Option Snapshot) :
    AddressBook × List String :=
  match fileContent with
  | some d => ({ data := d }, [])
  | none => ({ data := [] }, ["File not found. Creating a new address book."])

/-- The key invariant of the claim: every key of the book equals the
name of the record it maps to. -/
def keysMatchNames (book : AddressBook) : Bool :=
  book.data.all fun kv => kv.1 = kv.2.name

theorem recordMatches_eq_all (r : Record) (criteria : List (String × String)) :
    recordMatches r criteria = criteria.all (criterionHolds r) := by
  induction criteria with
  | nil => rfl
  | cons c rest ih =>
    obtain ⟨field, value⟩ := c
    by_cases hn : field = "name"
    · subst hn
      by_cases hv : r.name = value
      · simp [recordMatches, criterionHolds, hv, ih]
      · simp [recordMatches, criterionHolds, hv]
    · by_cases hp : field = "phone"
      · subst hp
        by_cases hm : r.phones.any (fun p => p = value)
        · simp [recordMatches, criterionHolds, hm, ih]
        · simp at hm
          simp [recordMatches, criterionHolds, hm]
      · simp [recordMatches, criterionHolds, hn, hp, ih]

/-- C6: `search_records` returns exactly the records, in the
collection's iteration order, for which all supplied criteria hold: a
`name` criterion holds iff the name equals the value, a `phone`
criterion holds iff some phone equals the value, and unrecognized keys
are ignored without error. -/
theorem search_records_spec (book : AddressBook)
    (criteria : List (String × String)) :
    searchRecords book criteria
      = (book.data.map Prod.snd).filter fun r =>
          criteria.all (criterionHolds r) := by
  unfold searchRecords
  simp [recordMatches_eq_all]

theorem dictGet_dictInsert_self (l : List (String × Record)) (k : String)
    (v : Record) : dictGet (dictInsert l k v) k = some v := by
  induction l with
  | nil => simp [dictInsert, dictGet]
  | cons kv rest ih =>
    obtain ⟨k₁, v₁⟩ := kv
    by_cases h : k₁ = k
    · simp [dictInsert, dictGet, h]
    · simp [dictInsert, dictGet, h, ih]

theorem dictGet_dictInsert_ne (l : List (String × Record)) (k k₂ : String)
    (v : Record) (h : k₂ ≠ k) :
    dictGet (dictInsert l k v) k₂ = dictGet l k₂ := by
  induction l with
  | nil =>
    have hne : ¬ k = k₂ := fun hh => h hh.symm
    simp [dictInsert, dictGet, hne]
  | cons kv rest ih =>
    obtain ⟨k₁, v₁⟩ := kv
    by_cases h₁ : k₁ = k
    · subst h₁
      have hne : ¬ k₁ = k₂ := fun hh => h hh.symm
      simp [dictInsert, dictGet, hne]
    · simp [dictInsert, dictGet, h₁, ih]

theorem dictInsert_all {P : String × Record → Bool}
    (l : List (String × Record)) (k : String) (v : Record)
    (hl : l.all P = true) (hkv : P (k, v) = true) :
    (dictInsert l k v).all P = true := by
  induction l with
  | nil => simp [dictInsert, hkv]
  | cons kv rest ih =>
    obtain ⟨k₁, v₁⟩ := kv
    simp only [List.all_cons, Bool.and_eq_true] at hl
    obtain ⟨h₁, h₂⟩ := hl
    by_cases h : k₁ = k
    · simp [dictInsert, h, List.all_cons, hkv, h₂]
    · simp [dictInsert, h, List.all_cons, h₁, ih h₂]

/-- C7: `add_record` inserts the record keyed by its name value without
raising; the entry at that key is the whole new record (silent
replacement, no merge) while every other key's entry is untouched; and
the invariant that every key equals its record's name is preserved, so
it holds after any sequence of `add_record` calls on a book satisfying
it. -/
theorem add_record_spec (book : AddressBook) (r : Record) :
    dictGet (addRecord book r).data r.name = some r
    ∧ (∀ k, k ≠ r.name →
        dictGet (addRecord book r).data k = dictGet book.data k)
    ∧ (keysMatchNames book = true → keysMatchNames (addRecord book r) = true) := by
  refine ⟨dictGet_dictInsert_self book.data r.name r,
    fun k hk => dictGet_dictInsert_ne book.data r.name k r hk,
    fun h => ?_⟩
  show (dictInsert book.data r.name r).all _ = true
  exact dictInsert_all book.data r.name r h (by simp)

theorem add_record_spec_witness :
    dictGet (addRecord
        { data := [("alice", { name := "alice", birthday := none,
                               phones := ["111111111"] })] }
        { name := "alice", birthday := none, phones := ["222222222"] }).data
      "alice"
      = some { name := "alice", birthday := none, phones := ["222222222"] }
    ∧ dictGet (addRecord
        { data := [("alice", { name := "alice", birthday := none,
                               phones := ["111111111"] })] }
        { name := "alice", birthday := none, phones := ["222222222"] }).data
      "carol"
      = dictGet [("alice", { name := "alice", birthday := none,
                             phones := ["111111111"] })] "carol"
    ∧ keysMatchNames (addRecord
        { data := [("alice", { name := "alice", birthday := none,
                               phones := ["111111111"] })] }
        { name := "alice", birthday := none, phones := ["222222222"] }) = true := by
  have h := add_record_spec
    { data := [("alice", { name := "alice", birthday := none,
                           phones := ["111111111"] })] }
    { name := "alice", birthday := none, phones := ["222222222"] }
  exact ⟨h.1, h.2.1 "carol" (by decide), h.2.2 (by decide)⟩

/-- C8: saving an address book and then loading from the same handle
reproduces a collection with identical keys and, at each key, a record
with identical name, identical phone sequence and identical birthday;
the previous in-memory state at load time is irrelevant. -/
theorem save_load_roundtrip (book scratch : AddressBook)
    (fileContent : Option Snapshot) :
    ((loadFromFile scratch (saveToFile book fileContent)).1.data.map Prod.fst
      = book.data.map Prod.fst)
    ∧ ∀ k, (dictGet (loadFromFile scratch (saveToFile book fileContent)).1.data
              k).map (fun r => (r.name, r.phones, r.birthday))
          = (dictGet book.data k).map (fun r => (r.name, r.phones, r.birthday)) :=
  ⟨rfl, fun _ => rfl⟩

/-- C9: loading from a nonexistent file raises no error: the mapping is
reset to empty and the informational diagnostic is printed; loading
from an existing file replaces the in-memory mapping wholesale with the
deserialized content, printing nothing. -/
theorem load_missing_file_spec (book : AddressBook) (d : Snapshot) :
    loadFromFile book none
      = ({ data := [] }, ["File not found. Creating a new address book."])
    ∧ loadFromFile book (some d) = ({ data := d }, []) :=
  ⟨rfl, rfl⟩

theorem editFirst_of_not_mem (l : List String) (old new : String)
    (h : old ∉ l) : editFirst l old new = l := by
  induction l with
  | nil => rfl
  | cons p ps ih =>
    simp at h
    have hne : ¬ p = old := fun hh => h.1 hh.symm
    simp [editFirst, hne, ih h.2]

theorem removeFirst_of_not_mem (l : List String) (v : String)
    (h : v ∉ l) : removeFirst l v = l := by
  induction l with
  | nil => rfl
  | cons p ps ih =>
    simp at h
    have hne : ¬ p = v := fun hh => h.1 hh.symm
    simp [removeFirst, hne, ih h.2]

/-- C10: when no phone in the record equals `oldValue`, `edit_phone`
with any `newValue` raises nothing and leaves the whole record
unchanged, and `remove_phone` of that value likewise raises nothing and
leaves the whole record unchanged. -/
theorem edit_remove_no_match_noop (r : Record) (oldValue newValue : String)
    (h : oldValue ∉ r.phones) :
    editPhone r oldValue newValue = r ∧ removePhone r oldValue = r := by
  constructor
  · unfold editPhone
    rw [editFirst_of_not_mem r.phones oldValue newValue h]
  · unfold removePhone
    rw [removeFirst_of_not_mem r.phones oldValue h]

theorem edit_remove_no_match_noop_witness :
    editPhone { name := "bob", birthday := none, phones := ["123456789"] }
        "000000000" "12"
      = { name := "bob", birthday := none, phones := ["123456789"] }
    ∧ removePhone { name := "bob", birthday := none, phones := ["123456789"] }
        "000000000"
      = { name := "bob", birthday := none, phones := ["123456789"] } :=
  edit_remove_no_match_noop
    { name := "bob", birthday := none, phones := ["123456789"] }
    "000000000" "12" (by decide)

end Zadanie1
